import Mathlib

/-!
Shallow embedding of the Inkscape extension `union.py` (class `PathOperations`):
path geometry values, affine transforms, path elements, the document, and the
three operations `union_paths`, `intersect_paths` and `effect`.

Modelling conventions:
* A parsed path geometry is a list of drawing commands with rational
  coordinates; `Path(path_data)` parsing is abstracted away, so a path
  element carries `d : Option (List PathCmd)` where `none` stands for an
  absent or empty (falsy) `d` attribute string.
* `inkex.errormsg` side effects are collected in a `List String` of messages.
* `intersected_path.intersect(...)` is a library-provided routine; it is a
  parameter `ifn` of the embedding.
* The per-path `try/except` handlers of the source are dead code in a pure
  embedding (no exception can arise) and are omitted.
-/

set_option autoImplicit false

namespace PathOps

/-- An affine transform, as the 2x3 SVG matrix (a b c d e f):
x ↦ a*x + c*y + e, y ↦ b*x + d*y + f. -/
structure Transform where
  a : ℚ
  b : ℚ
  c : ℚ
  d : ℚ
  e : ℚ
  f : ℚ
deriving DecidableEq

/-- The identity affine transform. -/
def identityTransform : Transform := ⟨1, 0, 0, 1, 0, 0⟩

/-- Truthiness of an inkex `Transform` (line 81 `if transform:`): a transform
is truthy iff it differs from the identity matrix. -/
def transformTruthy (t : Transform) : Bool := decide (t ≠ identityTransform)

/-- Apply an affine transform to a point. -/
def applyPoint (t : Transform) (q : ℚ × ℚ) : ℚ × ℚ :=
  (t.a * q.1 + t.c * q.2 + t.e, t.b * q.1 + t.d * q.2 + t.f)

/-- One parsed path drawing command (move / line / curve / close). -/
inductive PathCmd where
  | move (q : ℚ × ℚ)
  | line (q : ℚ × ℚ)
  | curve (c1 c2 q : ℚ × ℚ)
  | close
deriving DecidableEq

/-- Apply an affine transform to one command's coordinates. -/
def PathCmd.applyT (t : Transform) : PathCmd → PathCmd
  | .move q => .move (applyPoint t q)
  | .line q => .line (applyPoint t q)
  | .curve c1 c2 q => .curve (applyPoint t c1) (applyPoint t c2) (applyPoint t q)
  | .close => .close

/-- A selected path object: id, optional parsed path data (`none` models an
absent or falsy `d` attribute), optional composed transform, style mapping. -/
structure PathElement where
  id : String
  d : Option (List PathCmd)
  ctransform : Option Transform
  style : List (String × String)
deriving DecidableEq

/-- A newly created result path object: geometry and style mapping. -/
structure ResultPath where
  d : List PathCmd
  style : List (String × String)
deriving DecidableEq

/-- A member of the host selection: either a recognized path element or some
other (non-path) object, known only by its id. -/
inductive SvgObject where
  | pathElem (e : PathElement)
  | other (oid : String)
deriving DecidableEq

/-- The id of a selected object. -/
def SvgObject.objId : SvgObject → String
  | .pathElem e => e.id
  | .other oid => oid

/-- The `isinstance(obj, inkex.PathElement)` check. -/
def SvgObject.isPathElem : SvgObject → Bool
  | .pathElem _ => true
  | .other _ => false

/-- View a selected object as a path element, when it is one. -/
def SvgObject.asPath : SvgObject → Option PathElement
  | .pathElem e => some e
  | .other _ => none

/-- The host document: its objects (flat) and the current layer's contents. -/
structure Document where
  objects : List SvgObject
  layer : List ResultPath
deriving DecidableEq

/-- Python `dict.update` on association-list style mappings: keys of `base`
keep their position but take the updating value; new keys of `upd` are
appended in order. -/
def styleUpdate (base upd : List (String × String)) : List (String × String) :=
  (base.map fun kv =>
    match upd.find? (fun kv2 => kv2.1 == kv.1) with
    | some kv2 => (kv.1, kv2.2)
    | none => kv) ++
  upd.filter fun kv2 => !(base.any fun kv => kv.1 == kv2.1)

/-- Lines 28-32 and 97-101: apply the composed transform when it `is not None`
(identity included), otherwise keep the geometry untransformed. -/
def transformedGeom (p : PathElement) (g : List PathCmd) : List PathCmd :=
  match p.ctransform with
  | some t => g.map (PathCmd.applyT t)
  | none => g

/-- Error message of lines 36, 85 and 104. -/
def noDataMsg (oid : String) : String :=
  "Path with id '" ++ oid ++ "' has no path data."

/-- The loop of `union_paths` (lines 23-40): accumulate each path's
transformed geometry, or stop with an error on the first absent path data. -/
def unionFold : List PathElement → List PathCmd → Except String (List PathCmd)
  | [], acc => .ok acc
  | p :: rest, acc =>
    match p.d with
    | some g => unionFold rest (acc ++ transformedGeom p g)
    | none => .error (noDataMsg p.id)

/-- `PathOperations.union_paths` (lines 10-52). Returns the optional result
path together with the emitted error messages. `first_path` is the head of the
list whenever the loop completed and the list is non-empty (it was set at
`i == 0`, whose failure would have returned early). -/
def union_paths (selected_paths : List PathElement) :
    Option ResultPath × List String :=
  match unionFold selected_paths [] with
  | .error msg => (none, [msg])
  | .ok combined =>
    if combined.isEmpty then (none, [])
    else
      match selected_paths with
      | [] => (some ⟨combined, []⟩, [])
      | p0 :: _ => (some ⟨combined, styleUpdate [] p0.style⟩, [])

/-- Lines 80-82: the seed geometry of `intersect_paths`; the composed
transform is applied only when truthy (`if transform:`). -/
def seedGeom (p : PathElement) (g : List PathCmd) : List PathCmd :=
  match p.ctransform with
  | some t => if transformTruthy t then g.map (PathCmd.applyT t) else g
  | none => g

/-- The loop of `intersect_paths` (lines 92-112): fold the library
intersection `ifn` over the remaining paths, stopping with an error on absent
path data or on an empty running result. -/
def intersectLoop (ifn : List PathCmd → List PathCmd → List PathCmd) :
    List PathElement → List PathCmd → Except String (List PathCmd)
  | [], acc => .ok acc
  | p :: rest, acc =>
    match p.d with
    | some g =>
      let acc2 := ifn acc (transformedGeom p g)
      if acc2.isEmpty then .error "Intersection resulted in an empty path."
      else intersectLoop ifn rest acc2
    | none => .error (noDataMsg p.id)

/-- `PathOperations.intersect_paths` (lines 54-123). The truthiness test
`if first_path:` of line 119 is modelled as presence of the first element,
which is always the case on the success branch. -/
def intersect_paths (ifn : List PathCmd → List PathCmd → List PathCmd)
    (selected_paths : List PathElement) : Option ResultPath × List String :=
  match selected_paths with
  | [] => (none, [])
  | [_] => (none, ["Intersection requires at least two paths."])
  | p0 :: rest =>
    match p0.d with
    | none => (none, [noDataMsg p0.id])
    | some g0 =>
      match intersectLoop ifn rest (seedGeom p0 g0) with
      | .error msg => (none, [msg])
      | .ok res =>
        if res.isEmpty then (none, [])
        else (some ⟨res, styleUpdate [] p0.style⟩, [])

/-- Error message of line 142. -/
def nonPathMsg (oid : String) : String :=
  "Object with id '" ++ oid ++ "' is not a path and will be ignored."

/-- The validation loop of `effect` (lines 138-142): collect recognized path
elements in selection order, reporting each non-path object. -/
def validatePaths : List SvgObject → List PathElement × List String
  | [] => ([], [])
  | o :: rest =>
    let v := validatePaths rest
    match o with
    | .pathElem e => (e :: v.1, v.2)
    | .other oid => (v.1, nonPathMsg oid :: v.2)

/-- The abort message of lines 133 and 136. -/
def abortMsg1 : String := "Please select at least two paths to operate on."

/-- The abort message of line 145. -/
def abortMsg2 : String :=
  "Please select at least two path objects to operate on. Ensure objects are converted to paths."

/-- Outcome of one invocation of `effect`: either the host abort condition
(`inkex.AbortExtension`, raised before any mutation) or a finished run with
the resulting document and the emitted error messages. -/
inductive EffectResult where
  | abort (msg : String)
  | done (doc : Document) (errors : List String)
deriving DecidableEq

/-- Lines 162-166: delete every validated input object from the document and
append the result path to the current layer. -/
def commitDoc (doc : Document) (ps : List PathElement) (r : ResultPath) :
    Document :=
  { objects := doc.objects.filter fun o => !((ps.map PathElement.id).contains o.objId),
    layer := doc.layer ++ [r] }

/-- Lines 161-168: on a produced result, commit; otherwise report failure and
leave the document untouched. -/
def finish (doc : Document) (ps : List PathElement) (verrs : List String) :
    Option ResultPath × List String → EffectResult
  | (some r, oerrs) => .done (commitDoc doc ps r) (verrs ++ oerrs)
  | (none, oerrs) =>
    .done doc (verrs ++ oerrs ++ ["Operation failed to produce a path."])

/-- Unknown-operation message of line 158. -/
def unknownOpMsg (operation : String) : String :=
  "Unknown operation: " ++ operation ++ ".  Use 'union' or 'intersect'."

/-- Lines 153-168: choose the operation and commit or report. -/
def dispatch (ifn : List PathCmd → List PathCmd → List PathCmd)
    (operation : String) (doc : Document) (ps : List PathElement)
    (verrs : List String) : EffectResult :=
  if operation = "union" then finish doc ps verrs (union_paths ps)
  else if operation = "intersect" then
    finish doc ps verrs (intersect_paths ifn ps)
  else .done doc (verrs ++ [unknownOpMsg operation])

/-- The operation chosen by `operation`, as a plain function of the validated
paths (the two recognized branches of lines 153-156). -/
def runOp (ifn : List PathCmd → List PathCmd → List PathCmd)
    (operation : String) (ps : List PathElement) :
    Option ResultPath × List String :=
  if operation = "union" then union_paths ps else intersect_paths ifn ps

/-- `PathOperations.effect` (lines 127-168). The two aborts of lines 132-136
test emptiness and then size and raise the same message; they collapse to one
size test. -/
def effect (ifn : List PathCmd → List PathCmd → List PathCmd)
    (operation : String) (doc : Document) (selection : List SvgObject) :
    EffectResult :=
  if selection.length < 2 then .abort abortMsg1
  else
    let v := validatePaths selection
    if v.1.length < 2 then .abort abortMsg2
    else dispatch ifn operation doc v.1 v.2

/-! ### Helper lemmas -/

theorem applyPoint_identity (q : ℚ × ℚ) : applyPoint identityTransform q = q := by
  simp [applyPoint, identityTransform]

theorem applyT_identity (c : PathCmd) :
    PathCmd.applyT identityTransform c = c := by
  cases c <;> simp [PathCmd.applyT, applyPoint_identity]

theorem map_applyT_identity (g : List PathCmd) :
    g.map (PathCmd.applyT identityTransform) = g := by
  induction g with
  | nil => rfl
  | cons c rest ih => simp [applyT_identity, ih]

theorem transformedGeom_identity (p : PathElement) (g : List PathCmd)
    (h : p.ctransform = some identityTransform) : transformedGeom p g = g := by
  simp [transformedGeom, h, map_applyT_identity, applyT_identity]

theorem styleUpdate_nil (s : List (String × String)) : styleUpdate [] s = s := by
  simp [styleUpdate]

theorem transformTruthy_identity : transformTruthy identityTransform = false := by
  simp [transformTruthy]

theorem seedGeom_identity (p : PathElement) (g : List PathCmd)
    (h : p.ctransform = some identityTransform) : seedGeom p g = g := by
  simp [seedGeom, h, transformTruthy_identity]

theorem unionFold_all_some (ps : List PathElement) (acc : List PathCmd)
    (h : ∀ p ∈ ps, p.d ≠ none) :
    unionFold ps acc =
      .ok (acc ++ (ps.map fun p => transformedGeom p (p.d.getD [])).flatten) := by
  induction ps generalizing acc with
  | nil => simp [unionFold]
  | cons p rest ih =>
    have hp : p.d ≠ none := h p (by simp)
    cases hd : p.d with
    | none => exact absurd hd hp
    | some g =>
      have hrest : ∀ q ∈ rest, q.d ≠ none := fun q hq => h q (by simp [hq])
      simp [unionFold, hd, ih _ hrest, List.append_assoc]

theorem unionFold_ok_all_some (ps : List PathElement) (acc res : List PathCmd)
    (h : unionFold ps acc = .ok res) : ∀ p ∈ ps, p.d ≠ none := by
  induction ps generalizing acc with
  | nil => intro p hp; cases hp
  | cons p rest ih =>
    intro q hq
    cases hd : p.d with
    | none => simp [unionFold, hd] at h
    | some g =>
      simp [unionFold, hd] at h
      rcases List.mem_cons.mp hq with hq0 | hq1
      · subst hq0; simp [hd]
      · exact ih _ h q hq1

theorem validatePaths_len (sel : List SvgObject) :
    (validatePaths sel).1.length ≤ sel.length := by
  induction sel with
  | nil => simp [validatePaths]
  | cons o rest ih =>
    cases o with
    | pathElem e => simpa [validatePaths] using ih
    | other oid => simp [validatePaths]; omega

/-! ### Concrete elements used by witnesses and counterexamples -/

/-- The rectangle `M0,0 L10,0 L10,10 L0,10 Z` of the spec's union example. -/
def rectGeom1 : List PathCmd :=
  [.move (0, 0), .line (10, 0), .line (10, 10), .line (0, 10), .close]

/-- The rectangle `M5,5 L15,5 L15,15 L5,15 Z` of the spec's union example. -/
def rectGeom2 : List PathCmd :=
  [.move (5, 5), .line (15, 5), .line (15, 15), .line (5, 15), .close]

/-- A path element holding the first rectangle, identity transform, red fill. -/
def elemA : PathElement :=
  ⟨"a", some rectGeom1, some identityTransform, [("fill", "red")]⟩

/-- A path element holding the second rectangle, identity transform. -/
def elemB : PathElement :=
  ⟨"b", some rectGeom2, some identityTransform, [("stroke", "blue")]⟩

/-- A path element whose `d` attribute is absent. -/
def elemNoData : PathElement := ⟨"c", none, some identityTransform, []⟩

/-- A selection consisting of the two rectangle path elements. -/
def selAB : List SvgObject := [.pathElem elemA, .pathElem elemB]

/-- A document containing exactly the two rectangle path elements. -/
def docAB : Document := ⟨selAB, []⟩

/-- A library intersection function that always returns the empty geometry,
modelling two disjoint path geometries. -/
def ifnEmpty : List PathCmd → List PathCmd → List PathCmd := fun _ _ => []

/-- A trivial placeholder intersection function. -/
def ifnFst : List PathCmd → List PathCmd → List PathCmd := fun g _ => g

/-- The union result of the two concrete rectangles. -/
def resAB : ResultPath := ⟨rectGeom1 ++ rectGeom2, [("fill", "red")]⟩

/-- A selection whose middle path element has no path data. -/
def selCex : List SvgObject :=
  [.pathElem elemA, .pathElem elemNoData, .pathElem elemB]

/-- A document containing exactly the `selCex` objects. -/
def docCex : Document := ⟨selCex, []⟩

/-- A selection mixing two path elements with one non-path object. -/
def selMix : List SvgObject :=
  [.pathElem elemA, .other "g1", .pathElem elemB]

/-! ### Lemmas about `effect`'s structure -/

theorem effect_dispatch (ifn : List PathCmd → List PathCmd → List PathCmd)
    (op : String) (doc : Document) (sel : List SvgObject)
    (h2 : 2 ≤ (validatePaths sel).1.length) :
    effect ifn op doc sel =
      dispatch ifn op doc (validatePaths sel).1 (validatePaths sel).2 := by
  have hsel : ¬ sel.length < 2 := by
    have := validatePaths_len sel; omega
  have hv : ¬ (validatePaths sel).1.length < 2 := by omega
  simp [effect, hsel, hv]

theorem validatePaths_fst (sel : List SvgObject) :
    (validatePaths sel).1 = sel.filterMap SvgObject.asPath := by
  induction sel with
  | nil => rfl
  | cons o rest ih =>
    cases o with
    | pathElem e => simp [validatePaths, SvgObject.asPath, ih]
    | other oid => simp [validatePaths, SvgObject.asPath, ih]

theorem validatePaths_snd (sel : List SvgObject) :
    (validatePaths sel).2 =
      (sel.filter fun o => !(o.isPathElem)).map fun o => nonPathMsg o.objId := by
  induction sel with
  | nil => rfl
  | cons o rest ih =>
    cases o with
    | pathElem e => simp [validatePaths, SvgObject.isPathElem, ih]
    | other oid =>
      simp [validatePaths, SvgObject.isPathElem, SvgObject.objId, ih]

theorem commitDoc_no_input (doc : Document) (ps : List PathElement)
    (r : ResultPath) :
    ∀ p ∈ ps, ∀ o ∈ (commitDoc doc ps r).objects, o.objId ≠ p.id := by
  intro p hp o ho
  have hmem := List.mem_filter.mp ho
  have hcon : ((ps.map PathElement.id).contains o.objId) = false := by
    simpa using hmem.2
  have : o.objId ∉ ps.map PathElement.id := by simpa using hcon
  intro hEq
  exact this (hEq ▸ List.mem_map_of_mem PathElement.id hp)

theorem finish_some (doc : Document) (ps : List PathElement)
    (verrs oerrs : List String) (r : ResultPath) :
    finish doc ps verrs (some r, oerrs) =
      .done (commitDoc doc ps r) (verrs ++ oerrs) := rfl

theorem finish_none (doc : Document) (ps : List PathElement)
    (verrs oerrs : List String) :
    finish doc ps verrs (none, oerrs) =
      .done doc (verrs ++ oerrs ++ ["Operation failed to produce a path."]) := rfl

theorem dispatch_runOp (ifn : List PathCmd → List PathCmd → List PathCmd)
    (op : String) (doc : Document) (ps : List PathElement)
    (verrs : List String) (hop : op = "union" ∨ op = "intersect") :
    dispatch ifn op doc ps verrs = finish doc ps verrs (runOp ifn op ps) := by
  rcases hop with h | h <;> subst h <;> simp [dispatch, runOp]

theorem union_paths_ok_cons (p0 : PathElement) (rest : List PathElement)
    (combined : List PathCmd) (hF : unionFold (p0 :: rest) [] = .ok combined)
    (hne : combined ≠ []) :
    union_paths (p0 :: rest) =
      (some ⟨combined, styleUpdate [] p0.style⟩, []) := by
  have hempty : combined.isEmpty = false := by
    simpa [List.isEmpty_iff] using hne
  unfold union_paths
  rw [hF]
  simp [hempty]

/-! ### Claim theorems -/

/-- Claim C1: for every selection of two or more path objects whose composed
transforms are the identity (each carrying parsed, non-empty path data), the
union operation produces a result path whose geometry equals the literal
concatenation of the inputs' parsed command sequences, in selection order. -/
theorem union_identity_concat (ps : List PathElement)
    (h2 : 2 ≤ ps.length)
    (hid : ∀ p ∈ ps, p.ctransform = some identityTransform)
    (hd : ∀ p ∈ ps, ∃ g, p.d = some g ∧ g ≠ []) :
    ∃ r, (union_paths ps).1 = some r ∧
      r.d = (ps.map fun p => p.d.getD []).flatten := by
  have hd' : ∀ p ∈ ps, p.d ≠ none := by
    intro p hp
    obtain ⟨g, hg, _⟩ := hd p hp
    simp [hg]
  have hfold := unionFold_all_some ps [] hd'
  have hmap : (ps.map fun p => transformedGeom p (p.d.getD [])) =
      ps.map fun p => p.d.getD [] :=
    List.map_congr_left fun p hp => transformedGeom_identity p _ (hid p hp)
  rw [hmap, List.nil_append] at hfold
  obtain ⟨p0, rest, rfl⟩ : ∃ p0 rest, ps = p0 :: rest := by
    cases ps with
    | nil => simp at h2
    | cons a b => exact ⟨a, b, rfl⟩
  obtain ⟨g0, hg0, hg0ne⟩ := hd p0 (by simp)
  have hne : (((p0 :: rest).map fun p => p.d.getD []).flatten) ≠ [] := by
    simp only [List.map_cons, List.flatten_cons, hg0, Option.getD_some]
    intro hcontra
    exact hg0ne (List.append_eq_nil.mp hcontra).1
  refine ⟨⟨((p0 :: rest).map fun p => p.d.getD []).flatten,
    styleUpdate [] p0.style⟩, ?_, rfl⟩
  rw [union_paths_ok_cons p0 rest _ hfold hne]

/-- Witness for C1: the two rectangle paths of the spec's example. -/
theorem union_identity_concat_witness :
    ∃ r, (union_paths [elemA, elemB]).1 = some r ∧
      r.d = ([elemA, elemB].map fun p => p.d.getD []).flatten := by
  refine union_identity_concat [elemA, elemB] (by simp) ?_ ?_
  · intro p hp
    rcases List.mem_cons.mp hp with rfl | hp'
    · rfl
    · rcases List.mem_cons.mp hp' with rfl | hp''
      · rfl
      · cases hp''
  · intro p hp
    rcases List.mem_cons.mp hp with rfl | hp'
    · exact ⟨rectGeom1, rfl, by simp [rectGeom1]⟩
    · rcases List.mem_cons.mp hp' with rfl | hp''
      · exact ⟨rectGeom2, rfl, by simp [rectGeom2]⟩
      · cases hp''

/-- Claim C4: for every selection with fewer than two elements, `effect`
raises the host abort condition before any document mutation. -/
theorem effect_small_selection_aborts
    (ifn : List PathCmd → List PathCmd → List PathCmd) (op : String)
    (doc : Document) (sel : List SvgObject) (h : sel.length < 2) :
    effect ifn op doc sel = .abort abortMsg1 := by
  simp [effect, h]

/-- Witness for C4: a singleton selection aborts. -/
theorem effect_small_selection_aborts_witness :
    effect ifnFst "union" docAB [SvgObject.pathElem elemA] = .abort abortMsg1 :=
  effect_small_selection_aborts ifnFst "union" docAB
    [SvgObject.pathElem elemA] (by simp)

/-- Counterexample to C8: `intersect_paths` on the empty input list — which
has fewer than two paths — returns no result but reports no error at all
(the `if not selected_paths` early return of line 67 precedes the
error-reporting size check of lines 70-72). -/
theorem intersect_empty_input_silent :
    intersect_paths ifnFst [] = (none, []) := rfl

/-- Claim C8 as amended: a singleton input list makes `intersect_paths`
report the at-least-two error and return no result; the empty input list
also returns no result, but silently. -/
theorem intersect_requires_two
    (ifn : List PathCmd → List PathCmd → List PathCmd) (p : PathElement) :
    intersect_paths ifn [p] =
      (none, ["Intersection requires at least two paths."]) ∧
    intersect_paths ifn [] = (none, []) :=
  ⟨rfl, rfl⟩

/-- Claim C9: every successful union result's style mapping equals the first
selected path's style mapping, unchanged. -/
theorem union_style_from_first (ps : List PathElement) (r : ResultPath)
    (h : (union_paths ps).1 = some r) :
    ∃ p0 rest, ps = p0 :: rest ∧ r.style = p0.style := by
  cases ps with
  | nil => simp [union_paths, unionFold] at h
  | cons p0 rest =>
    refine ⟨p0, rest, rfl, ?_⟩
    rcases hF : unionFold (p0 :: rest) [] with msg | combined
    · simp [union_paths, hF] at h
    · by_cases hc : combined.isEmpty
      · simp [union_paths, hF, hc] at h
      · simp [union_paths, hF, hc] at h
        rw [← h, styleUpdate_nil]

/-- Witness for C9: the style of the concrete union of the two rectangles is
the first rectangle's style. -/
theorem union_style_from_first_witness :
    ∃ p0 rest, [elemA, elemB] = p0 :: rest ∧ resAB.style = p0.style :=
  union_style_from_first [elemA, elemB] resAB (by
    simp [union_paths, unionFold, elemA, elemB, transformedGeom,
      map_applyT_identity, applyT_identity, resAB, rectGeom1, rectGeom2,
      styleUpdate_nil])

/-- Claim C10: a result returned by `union_paths` or `intersect_paths` always
carries non-empty geometry, and `union_paths` of the empty input list returns
`none` (with no message) rather than constructing an empty path. -/
theorem results_geom_nonempty
    (ifn : List PathCmd → List PathCmd → List PathCmd)
    (ps : List PathElement) :
    (∀ r, (union_paths ps).1 = some r → r.d ≠ []) ∧
    (∀ r, (intersect_paths ifn ps).1 = some r → r.d ≠ []) ∧
    union_paths [] = (none, []) := by
  refine ⟨?_, ?_, rfl⟩
  · intro r h
    rcases hF : unionFold ps [] with msg | combined
    · simp [union_paths, hF] at h
    · by_cases hc : combined.isEmpty
      · simp [union_paths, hF, hc] at h
      · cases ps with
        | nil => simp [union_paths, unionFold] at h
        | cons p0 rest =>
          simp [union_paths, hF, hc] at h
          rw [← h]
          simpa [List.isEmpty_iff] using hc
  · intro r h
    cases ps with
    | nil => simp [intersect_paths] at h
    | cons p0 tl =>
      cases tl with
      | nil => simp [intersect_paths] at h
      | cons p1 rest =>
        rcases hd0 : p0.d with _ | g0
        · simp [intersect_paths, hd0] at h
        · rcases hL : intersectLoop ifn (p1 :: rest) (seedGeom p0 g0)
            with msg | res
          · simp [intersect_paths, hd0, hL] at h
          · by_cases hr : res.isEmpty
            · simp [intersect_paths, hd0, hL, hr] at h
            · simp [intersect_paths, hd0, hL, hr] at h
              rw [← h]
              simpa [List.isEmpty_iff] using hr

/-- Witness for C10: the concrete union result of the two rectangles has
non-empty geometry. -/
theorem results_geom_nonempty_witness : resAB.d ≠ [] :=
  (results_geom_nonempty ifnFst [elemA, elemB]).1 resAB (by
    simp [union_paths, unionFold, elemA, elemB, transformedGeom,
      map_applyT_identity, applyT_identity, resAB, rectGeom1, rectGeom2,
      styleUpdate_nil])

/-- Counterexample to C2: in union mode, a path with absent path data (`c`)
is not skipped in favour of the remaining inputs. The whole operation
aborts: only the missing-data error is reported, path `b` after it is never
processed, no result is produced, and nothing — including the offending
input — is deleted: `effect` returns the document unchanged. -/
theorem union_missing_data_cex :
    union_paths [elemA, elemNoData, elemB] = (none, [noDataMsg "c"]) ∧
    effect ifnFst "union" docCex selCex =
      .done docCex [noDataMsg "c", "Operation failed to produce a path."] := by
  constructor
  · simp [union_paths, unionFold, elemA, elemNoData, transformedGeom,
      map_applyT_identity, applyT_identity, rectGeom1]
  · simp [effect, selCex, docCex, validatePaths, dispatch, finish,
      union_paths, unionFold, elemA, elemNoData, transformedGeom,
      map_applyT_identity, applyT_identity, rectGeom1]

/-- Claim C2 as amended: in the dual-purpose script's union mode, a validated
input with absent path data makes the whole union abort, not just that path:
`union_paths` returns no result, an error is reported, no input is deleted
and the document is returned unchanged. -/
theorem union_missing_data_aborts_whole
    (ifn : List PathCmd → List PathCmd → List PathCmd)
    (doc : Document) (sel : List SvgObject)
    (h2 : 2 ≤ (validatePaths sel).1.length)
    (hmiss : ∃ p ∈ (validatePaths sel).1, p.d = none) :
    (union_paths (validatePaths sel).1).1 = none ∧
    ∃ errs, effect ifn "union" doc sel = .done doc errs ∧ errs ≠ [] := by
  obtain ⟨p, hp, hpd⟩ := hmiss
  obtain ⟨msg, hmsg⟩ : ∃ msg, unionFold (validatePaths sel).1 [] = .error msg := by
    rcases hF : unionFold (validatePaths sel).1 [] with msg | combined
    · exact ⟨msg, rfl⟩
    · exact absurd hpd (unionFold_ok_all_some _ _ _ hF p hp)
  have hu : union_paths (validatePaths sel).1 = (none, [msg]) := by
    unfold union_paths
    rw [hmsg]
  refine ⟨by rw [hu], ?_⟩
  refine ⟨(validatePaths sel).2 ++ [msg] ++
    ["Operation failed to produce a path."], ?_, by simp⟩
  rw [effect_dispatch ifn "union" doc sel h2,
    dispatch_runOp _ _ _ _ _ (Or.inl rfl)]
  have hrun : runOp ifn "union" (validatePaths sel).1 = (none, [msg]) := by
    simp [runOp, hu]
  rw [hrun, finish_none]

/-- Witness for the amended C2, at the concrete selection whose middle path
has no path data. -/
theorem union_missing_data_aborts_whole_witness :
    (union_paths (validatePaths selCex).1).1 = none ∧
    ∃ errs, effect ifnFst "union" docCex selCex = .done docCex errs ∧
      errs ≠ [] :=
  union_missing_data_aborts_whole ifnFst docCex selCex
    (by simp [selCex, validatePaths])
    ⟨elemNoData, by simp [selCex, validatePaths], rfl⟩

/-- Claim C3: with a recognized operation and a validated selection of at
least two paths, if the chosen operation produces a result path then `effect`
deletes every validated input object from the document and appends the single
result to the current layer; if it produces no result, the document is
returned unchanged — the originals are removed on success only. -/
theorem effect_commits_on_success
    (ifn : List PathCmd → List PathCmd → List PathCmd) (op : String)
    (doc : Document) (sel : List SvgObject) (r : ResultPath)
    (hop : op = "union" ∨ op = "intersect")
    (h2 : 2 ≤ (validatePaths sel).1.length) :
    ((runOp ifn op (validatePaths sel).1).1 = some r →
      effect ifn op doc sel =
        .done (commitDoc doc (validatePaths sel).1 r)
          ((validatePaths sel).2 ++ (runOp ifn op (validatePaths sel).1).2) ∧
      (commitDoc doc (validatePaths sel).1 r).layer = doc.layer ++ [r] ∧
      ∀ p ∈ (validatePaths sel).1,
        ∀ o ∈ (commitDoc doc (validatePaths sel).1 r).objects,
          o.objId ≠ p.id) ∧
    ((runOp ifn op (validatePaths sel).1).1 = none →
      effect ifn op doc sel =
        .done doc ((validatePaths sel).2 ++
          (runOp ifn op (validatePaths sel).1).2 ++
          ["Operation failed to produce a path."])) := by
  have hE := effect_dispatch ifn op doc sel h2
  rw [dispatch_runOp _ _ _ _ _ hop] at hE
  constructor
  · intro hr
    rcases hR : runOp ifn op (validatePaths sel).1 with ⟨o, oerrs⟩
    rw [hR] at hE hr
    simp only at hr
    subst hr
    rw [finish_some] at hE
    exact ⟨by rw [hE], rfl, commitDoc_no_input doc _ r⟩
  · intro hr
    rcases hR : runOp ifn op (validatePaths sel).1 with ⟨o, oerrs⟩
    rw [hR] at hE hr
    simp only at hr
    subst hr
    rw [finish_none] at hE
    rw [hE]

/-- Witness for C3: the concrete union of the two rectangles commits — both
originals deleted, the result appended to the layer. -/
theorem effect_commits_on_success_witness :
    effect ifnFst "union" docAB selAB =
      .done (commitDoc docAB (validatePaths selAB).1 resAB)
        ((validatePaths selAB).2 ++
          (runOp ifnFst "union" (validatePaths selAB).1).2) :=
  ((effect_commits_on_success ifnFst "union" docAB selAB resAB (Or.inl rfl)
    (by simp [selAB, validatePaths])).1 (by
      simp [runOp, selAB, validatePaths, union_paths, unionFold, elemA, elemB,
        transformedGeom, map_applyT_identity, applyT_identity, resAB,
        rectGeom1, rectGeom2, styleUpdate_nil])).1

/-- Claim C5: in intersect mode, as soon as the running intersection becomes
empty, the failure is reported and the operation aborts immediately — no
further input is processed whatever follows, no result is produced, and the
dispatcher leaves the document unchanged; in particular two disjoint
geometries (a library intersection returning the empty geometry) yield the
fatal empty-result error and no document mutation. -/
theorem intersect_empty_short_circuit
    (ifn : List PathCmd → List PathCmd → List PathCmd)
    (p0 p1 : PathElement) (rest : List PathElement)
    (g0 g1 : List PathCmd) (doc : Document) (sel : List SvgObject)
    (hd0 : p0.d = some g0) (hd1 : p1.d = some g1)
    (hempty : ifn (seedGeom p0 g0) (transformedGeom p1 g1) = []) :
    intersect_paths ifn (p0 :: p1 :: rest) =
      (none, ["Intersection resulted in an empty path."]) ∧
    ((validatePaths sel).1 = p0 :: p1 :: rest →
      effect ifn "intersect" doc sel =
        .done doc ((validatePaths sel).2 ++
          ["Intersection resulted in an empty path."] ++
          ["Operation failed to produce a path."])) := by
  have hloop : intersectLoop ifn (p1 :: rest) (seedGeom p0 g0) =
      .error "Intersection resulted in an empty path." := by
    simp [intersectLoop, hd1, hempty]
  have hi : intersect_paths ifn (p0 :: p1 :: rest) =
      (none, ["Intersection resulted in an empty path."]) := by
    simp [intersect_paths, hd0, hloop]
  refine ⟨hi, fun hv => ?_⟩
  have h2 : 2 ≤ (validatePaths sel).1.length := by rw [hv]; simp
  rw [effect_dispatch ifn "intersect" doc sel h2,
    dispatch_runOp _ _ _ _ _ (Or.inr rfl)]
  have hne : ("intersect" : String) ≠ "union" := by decide
  have hrun : runOp ifn "intersect" (validatePaths sel).1 =
      (none, ["Intersection resulted in an empty path."]) := by
    simp [runOp, hne, hv, hi]
  rw [hrun, finish_none]

/-- Witness for C5: intersecting the two concrete rectangles under a library
intersection that judges them disjoint. -/
theorem intersect_empty_short_circuit_witness :
    intersect_paths ifnEmpty [elemA, elemB] =
      (none, ["Intersection resulted in an empty path."]) ∧
    effect ifnEmpty "intersect" docAB selAB =
      .done docAB ["Intersection resulted in an empty path.",
        "Operation failed to produce a path."] := by
  have h := intersect_empty_short_circuit ifnEmpty elemA elemB [] rectGeom1
    rectGeom2 docAB selAB rfl rfl rfl
  refine ⟨h.1, ?_⟩
  have h2 := h.2 (by simp [selAB, validatePaths])
  simpa [selAB, validatePaths] using h2

/-- Claim C6: for every `operation` value other than `union` and `intersect`,
`effect` reports the unknown-operation error and takes no further action —
no result object is created, no input is deleted and the document is
returned unmodified. -/
theorem effect_unknown_op_noop
    (ifn : List PathCmd → List PathCmd → List PathCmd) (op : String)
    (doc : Document) (sel : List SvgObject)
    (hop1 : op ≠ "union") (hop2 : op ≠ "intersect")
    (h2 : 2 ≤ (validatePaths sel).1.length) :
    effect ifn op doc sel =
      .done doc ((validatePaths sel).2 ++ [unknownOpMsg op]) := by
  rw [effect_dispatch ifn op doc sel h2]
  simp [dispatch, hop1, hop2]

/-- Witness for C6: the operation value `difference` is reported as unknown
and the document is unchanged. -/
theorem effect_unknown_op_noop_witness :
    effect ifnFst "difference" docAB selAB =
      .done docAB ((validatePaths selAB).2 ++ [unknownOpMsg "difference"]) :=
  effect_unknown_op_noop ifnFst "difference" docAB selAB (by decide)
    (by decide) (by simp [selAB, validatePaths])

/-- Claim C7: validation keeps exactly the recognized path objects of the
selection, in host selection order, reports one ignore message per non-path
object, and — when at least two paths remain — the operation proceeds using
only those paths. -/
theorem validation_order_and_proceeds
    (ifn : List PathCmd → List PathCmd → List PathCmd) (op : String)
    (doc : Document) (sel : List SvgObject)
    (h2 : 2 ≤ (sel.filterMap SvgObject.asPath).length) :
    (validatePaths sel).1 = sel.filterMap SvgObject.asPath ∧
    (validatePaths sel).2 =
      ((sel.filter fun o => !(o.isPathElem)).map fun o => nonPathMsg o.objId) ∧
    effect ifn op doc sel =
      dispatch ifn op doc (sel.filterMap SvgObject.asPath)
        ((sel.filter fun o => !(o.isPathElem)).map fun o =>
          nonPathMsg o.objId) := by
  have h1 := validatePaths_fst sel
  have hsnd := validatePaths_snd sel
  refine ⟨h1, hsnd, ?_⟩
  have h2' : 2 ≤ (validatePaths sel).1.length := by rw [h1]; exact h2
  rw [effect_dispatch ifn op doc sel h2', h1, hsnd]

/-- Witness for C7: a selection with two paths and one non-path object. -/
theorem validation_order_and_proceeds_witness :
    (validatePaths selMix).1 = selMix.filterMap SvgObject.asPath ∧
    (validatePaths selMix).2 =
      ((selMix.filter fun o => !(o.isPathElem)).map fun o =>
        nonPathMsg o.objId) ∧
    effect ifnFst "union" docAB selMix =
      dispatch ifnFst "union" docAB (selMix.filterMap SvgObject.asPath)
        ((selMix.filter fun o => !(o.isPathElem)).map fun o =>
          nonPathMsg o.objId) :=
  validation_order_and_proceeds ifnFst "union" docAB selMix
    (by simp [selMix, SvgObject.asPath])

end PathOps
